import Mathlib

/-!
# Verification of the facebook-poster CSV import / dispatch logic

Shallow embedding of the core logic of the `facebook-poster` repository:

* the CSV bulk-import parser (`parseCSV`, `parseCSVLine` in the post-form
  component),
* the destination ("page") resolver used by bulk submission,
* the free-text scheduled-date parser (`parseScheduledDate`),
* the bulk submission loop (`handleBulkSubmit`),
* the create-post route handler's dispatch decision (`POST /api/posts`),
* the publish route handler (`POST /api/publish`) and the delete handler
  (`DELETE /api/posts`).

JavaScript strings are modelled as Lean `String`; string truthiness is
non-emptiness (`""` is falsy, every other string truthy); `undefined`
object fields read through `|| ''` are modelled as `""`.  The JavaScript
string methods used by the code (`trim`, `split`, `toLowerCase`,
`replace(/"/g, '')`) are given explicit structurally-recursive models over
`List Char` so that every definition evaluates inside the kernel.
External collaborators (the n8n webhook, the Supabase store) are
parameters or explicit state.
-/

namespace FacebookPoster

/-! ## JavaScript string primitives -/

/-- JavaScript `String.prototype.trim`: drop whitespace from both ends. -/
def jsTrimList (cs : List Char) : List Char :=
  ((cs.dropWhile Char.isWhitespace).reverse.dropWhile Char.isWhitespace).reverse

/-- `trim` on packed strings. -/
def jsTrim (s : String) : String := ⟨jsTrimList s.toList⟩

/-- JavaScript `split` with a single-character separator, on character
lists: `"".split(c) = [""]`, and every occurrence of the separator starts
a new group. -/
def splitOnCharList (c : Char) : List Char → List (List Char)
  | [] => [[]]
  | x :: xs =>
    if x = c then [] :: splitOnCharList c xs
    else
      match splitOnCharList c xs with
      | [] => [[x]]
      | g :: gs => (x :: g) :: gs

/-- JavaScript `split` with a single-character separator. -/
def jsSplit (sep : Char) (s : String) : List String :=
  (splitOnCharList sep s.toList).map (fun cs => ⟨cs⟩)

/-- JavaScript `String.prototype.toLowerCase` (ASCII range, which is all
the code compares). -/
def jsToLower (s : String) : String := ⟨s.toList.map Char.toLower⟩

/-- JavaScript string truthiness: a string is falsy exactly when empty. -/
def jsFalsy (s : String) : Bool := s.toList.isEmpty

/-! ## CSV parser (`parseCSV` / `parseCSVLine` in the post-form component) -/

/-- A destination page, as loaded from the store (`FacebookPage`
interface in the app): display name, optional numeric location code and
the external Facebook page id. -/
structure FacebookPage where
  id : String
  location_name : String
  location_number : Option String
  facebook_page_id : String
deriving DecidableEq, Repr

/-- A parsed CSV row (`CSVRow` interface): all optional fields are kept as
`""` when absent, exactly as the parser pushes them. -/
structure CSVRow where
  location_name : String
  location_number : String
  post_content : String
  link_url : String
  scheduled_for : String
  media_type : String
  media_url : String
deriving DecidableEq, Repr

/-- One step of the quote-aware field scanner of `parseCSVLine`:
a `"` toggles the inside-quoted-field mode, a `,` outside quotes ends the
current field (pushed trimmed), anything else is appended to the current
field.  The state is (fields so far, current field, inQuotes). -/
def csvLineStep (st : List String × List Char × Bool) (c : Char) :
    List String × List Char × Bool :=
  let (values, current, inQuotes) := st
  if c = '"' then (values, current, !inQuotes)
  else if c = ',' ∧ inQuotes = false then (values ++ [⟨jsTrimList current⟩], [], inQuotes)
  else (values, current ++ [c], inQuotes)

/-- `parseCSVLine` from the post-form component: split a data line on
commas, with a quote character toggling an inside-quoted-field mode so
embedded commas are not treated as separators; each field is trimmed, and
the final field is pushed after the scan. -/
def parseCSVLine (line : String) : List String :=
  let (values, current, _) := line.toList.foldl csvLineStep ([], [], false)
  values ++ [⟨jsTrimList current⟩]

/-- Header normalisation of `parseCSV`:
`h.trim().toLowerCase().replace(/"/g, '')`. -/
def normalizeHeader (h : String) : String :=
  ⟨((jsTrimList h.toList).map Char.toLower).filter (fun c => c ≠ '"')⟩

/-- The header list: the first line split on plain commas, each field
normalised. -/
def parseHeaders (line : String) : List String :=
  (jsSplit ',' line).map normalizeHeader

/-- Field lookup in the per-row object built by
`headers.forEach((header, index) => { row[header] = values[index] })`:
for duplicate headers the last assignment wins; an absent header yields
`""` (the code only reads these fields through truthiness tests and
`|| ''`, under which JavaScript `undefined` and `""` coincide). -/
def getField (headers values : List String) (name : String) : String :=
  match ((headers.zip values).reverse.find? (fun hv => hv.1 = name)) with
  | some hv => hv.2
  | none => ""

/-- The row-validation and row-construction step of the `parseCSV` loop:
a row missing both destination identifiers, or missing content, is
skipped (`none`); otherwise the `CSVRow` is built with `|| ''` defaults. -/
def rowOfValues (headers values : List String) : Option CSVRow :=
  let g := getField headers values
  if (g "location_name" = "" ∧ g "location_number" = "") ∨ g "post_content" = "" then
    none
  else
    some { location_name := g "location_name"
           location_number := g "location_number"
           post_content := g "post_content"
           link_url := g "link_url"
           scheduled_for := g "scheduled_for"
           media_type := g "media_type"
           media_url := g "media_url" }

/-- Processing of one data line in the `parseCSV` loop: scan the fields;
a line whose field count differs from the header's is skipped with a
console warning (`none`); otherwise validate and build the row. -/
def lineToRow (headers : List String) (line : String) : Option CSVRow :=
  let values := parseCSVLine line
  if values.length ≠ headers.length then none
  else rowOfValues headers values

/-- The non-blank trimmed lines of the input:
`text.split('\n').map(line => line.trim()).filter(line => line)`. -/
def csvLines (text : String) : List String :=
  ((jsSplit '\n' text).map jsTrim).filter (fun l => !jsFalsy l)

/-- `parseCSV` from the post-form component.  Throws (modelled as
`Except.error` with the thrown message) when fewer than two non-blank
lines are present, when neither destination-identifying column is in the
header, or when the content column is missing; otherwise processes every
data line with `lineToRow`, skipping invalid lines. -/
def parseCSV (text : String) : Except String (List CSVRow) :=
  let lines := csvLines text
  if lines.length < 2 then
    .error "CSV must have a header row and at least one data row"
  else
    let headers := parseHeaders (lines.headD "")
    if ¬(headers.contains "location_name" ∨ headers.contains "location_number") then
      .error "Missing required column: location_name or location_number"
    else if ¬(headers.contains "post_content") then
      .error "Missing required column: post_content"
    else
      .ok ((lines.drop 1).filterMap (lineToRow headers))

deriving instance DecidableEq for Except

/-! ## Row resolver (`handleBulkSubmit`, page lookup) -/

/-- Lookup by secondary numeric code:
`pages.find(p => p.location_number && p.location_number.toLowerCase() ===
row.location_number.toLowerCase())`. -/
def findPageByNumber (pages : List FacebookPage) (num : String) : Option FacebookPage :=
  pages.find? (fun p =>
    match p.location_number with
    | some n => !jsFalsy n && (jsToLower n = jsToLower num : Bool)
    | none => false)

/-- Lookup by display name:
`pages.find(p => p.location_name.toLowerCase() === row.location_name.toLowerCase())`. -/
def findPageByName (pages : List FacebookPage) (name : String) : Option FacebookPage :=
  pages.find? (fun p => jsToLower p.location_name = jsToLower name)

/-- The per-row page resolution of `handleBulkSubmit`: try the
`location_number` match when that field is truthy and its trim is truthy;
only when that produced no page, and `location_name` is truthy with a
truthy trim, fall back to the name match. -/
def resolvePage (pages : List FacebookPage) (row : CSVRow) : Option FacebookPage :=
  let byNumber :=
    if !jsFalsy row.location_number && !jsFalsy (jsTrim row.location_number) then
      findPageByNumber pages row.location_number
    else none
  match byNumber with
  | some p => some p
  | none =>
    if !jsFalsy row.location_name && !jsFalsy (jsTrim row.location_name) then
      findPageByName pages row.location_name
    else none

/-! ## Scheduled-date parsing (`parseScheduledDate`) -/

/-- The AM/PM capture of the date regex. -/
inductive Meridiem where
  | am
  | pm
deriving DecidableEq, Repr

/-- The arguments the code passes to
`new Date(year, monthIndex, day, hour, minute)`: a local date-time.
`monthIndex` is 0-based (0 = January), exactly as in the constructor
call `new Date(parseInt(year), parseInt(month) - 1, parseInt(day), hour,
minute)`.  For the component ranges the regex can produce the resulting
`Date` is always valid, so these arguments determine the local date-time
(JavaScript would normalise out-of-range components; the claims only
concern in-range ones). -/
structure JSDate where
  year : Int
  monthIndex : Int
  day : Int
  hour : Int
  minute : Int
deriving DecidableEq, Repr

/-- `parseInt(ds, 10)` on a non-empty all-digit capture. -/
def digitsToNat (ds : List Char) : Nat :=
  ds.foldl (fun n c => n * 10 + (c.toNat - '0'.toNat)) 0

/-- Deterministic matcher for the date regex of `parseScheduledDate`:

`/^(\d{1,2})\/(\d{1,2})\/(\d{4})(?:\s+(\d{1,2}):(\d{2})(?:\s*(AM|PM))?)?$/i`

Returns the captures `(month, day, year, time?)` with
`time = (hour, minute, meridiem?)`.  Because each bounded digit group is
immediately followed by a non-digit requirement (`/`, `:`, whitespace, or
end of input), the greedy scan below matches exactly the strings the
backtracking regex accepts. -/
def matchDateTime (s : String) : Option (Nat × Nat × Nat × Option (Nat × Nat × Option Meridiem)) :=
  let (mds, r1) := s.toList.span Char.isDigit
  if mds.length < 1 ∨ 2 < mds.length then none else
  match r1 with
  | '/' :: r2 =>
    let (dds, r3) := r2.span Char.isDigit
    if dds.length < 1 ∨ 2 < dds.length then none else
    match r3 with
    | '/' :: r4 =>
      let (yds, r5) := r4.span Char.isDigit
      if yds.length ≠ 4 then none else
      let month := digitsToNat mds
      let day := digitsToNat dds
      let year := digitsToNat yds
      match r5 with
      | [] => some (month, day, year, none)
      | _ =>
        let (sp, r6) := r5.span Char.isWhitespace
        if sp.length = 0 then none else
        let (hds, r7) := r6.span Char.isDigit
        if hds.length < 1 ∨ 2 < hds.length then none else
        match r7 with
        | ':' :: r8 =>
          let (nds, r9) := r8.span Char.isDigit
          if nds.length ≠ 2 then none else
          let hour := digitsToNat hds
          let minute := digitsToNat nds
          match r9 with
          | [] => some (month, day, year, some (hour, minute, none))
          | _ =>
            let (_, r10) := r9.span Char.isWhitespace
            match r10 with
            | [c1, c2] =>
              if c1.toLower = 'a' ∧ c2.toLower = 'm' then
                some (month, day, year, some (hour, minute, some .am))
              else if c1.toLower = 'p' ∧ c2.toLower = 'm' then
                some (month, day, year, some (hour, minute, some .pm))
              else none
            | _ => none
        | _ => none
    | _ => none
  | _ => none

/-- `parseScheduledDate` from the post-form component, parameterised by
the engine's generic date parse `jsDateFallback` (the behaviour of
`new Date(dateStr)` on arbitrary text is engine-specific and is not
reimplemented; `none` models an Invalid Date).  Empty or blank input
returns `null`; input matching the `MM/DD/YYYY[ HH:MM[ AM|PM]]` regex is
converted with hour defaulting to 9 and minute to 0 and with the 12-hour
adjustment; anything else goes to the generic parse, and `null` is
returned when that is invalid too.  (The code's `isNaN` guard after the
regex path never fires: a year of at most 9999 always yields a valid
`Date`, so the model returns the constructed date directly.) -/
def parseScheduledDate (jsDateFallback : String → Option JSDate) (dateStr : String) :
    Option JSDate :=
  if jsFalsy dateStr || jsFalsy (jsTrim dateStr) then none else
  match matchDateTime dateStr with
  | some (month, day, year, time) =>
    let hour0 : Nat := match time with | some (h, _, _) => h | none => 9
    let minute : Nat := match time with | some (_, n, _) => n | none => 0
    let hour : Nat :=
      match time with
      | some (_, _, some .pm) => if hour0 ≠ 12 then hour0 + 12 else hour0
      | some (_, _, some .am) => if hour0 = 12 then 0 else hour0
      | _ => hour0
    some { year := (year : Int), monthIndex := (month : Int) - 1, day := (day : Int),
           hour := (hour : Int), minute := (minute : Int) }
  | none => jsDateFallback dateStr

example :
    parseScheduledDate (fun _ => none) "01/20/2025 2:00 PM" =
      some { year := 2025, monthIndex := 0, day := 20, hour := 14, minute := 0 } := by
  decide

example : parseScheduledDate (fun _ => none) "soon" = none := by decide

example :
    parseScheduledDate (fun _ => none) "01/20/2025" =
      some { year := 2025, monthIndex := 0, day := 20, hour := 9, minute := 0 } := by
  decide

/-! ## Bulk submission (`handleBulkSubmit`) -/

/-- The JSON body `handleBulkSubmit` posts to `/api/posts` for one row,
with the `x || null` normalisations made explicit as `Option`s. -/
structure BulkPayload where
  facebook_page_id : String
  franchise_name : String
  location_number : Option String
  post_content : String
  link_url : Option String
  scheduled_for : Option JSDate
  publish_now : Bool
  media_type : Option String
  media_url : Option String
deriving DecidableEq, Repr

/-- `x || null` on a string field. -/
def orNull (s : String) : Option String := if jsFalsy s then none else some s

/-- The payload built for a resolved row:
`facebook_page_id`/`franchise_name`/`location_number` from the page,
`link_url` only for text posts, `scheduled_for` through
`parseScheduledDate`, `publish_now: false`, media fields only for
non-text rows. -/
def mkBulkPayload (jsDateFallback : String → Option JSDate)
    (page : FacebookPage) (row : CSVRow) : BulkPayload :=
  { facebook_page_id := page.facebook_page_id
    franchise_name := page.location_name
    location_number := match page.location_number with
      | some n => orNull n
      | none => none
    post_content := row.post_content
    link_url := if jsFalsy row.media_type || (row.media_type = "text" : Bool) then
        orNull row.link_url
      else none
    scheduled_for := parseScheduledDate jsDateFallback row.scheduled_for
    publish_now := false
    media_type := if !jsFalsy row.media_type && !(row.media_type = "text" : Bool) then
        some row.media_type
      else none
    media_url := orNull row.media_url }

/-- The identifier used in a "page not found" failure entry:
`${row.location_number || row.location_name}`. -/
def rowIdent (row : CSVRow) : String :=
  if jsFalsy row.location_number then row.location_name else row.location_number

/-- The accumulator of the bulk loop: the success counter, the
`failedRows` strings, and the trace of payloads actually posted to
`/api/posts`, in order (the observable dispatch sequence of the
sequential `for`/`await` loop). -/
structure BulkState where
  successCount : Nat
  failedRows : List String
  dispatched : List BulkPayload
deriving DecidableEq, Repr

/-- One iteration of the bulk loop over a row: an unresolvable row is
recorded as `"<ident> (page not found)"` and nothing is dispatched;
a resolvable row is dispatched, incrementing the counter on API success
and recording `"<location_name> (API error)"` on API failure. -/
def bulkStep (pages : List FacebookPage) (jsDateFallback : String → Option JSDate)
    (api : BulkPayload → Bool) (st : BulkState) (row : CSVRow) : BulkState :=
  match resolvePage pages row with
  | none =>
    { st with failedRows := st.failedRows ++ [rowIdent row ++ " (page not found)"] }
  | some page =>
    let payload := mkBulkPayload jsDateFallback page row
    if api payload then
      { st with successCount := st.successCount + 1
                dispatched := st.dispatched ++ [payload] }
    else
      { st with failedRows := st.failedRows ++ [row.location_name ++ " (API error)"]
                dispatched := st.dispatched ++ [payload] }

/-- `handleBulkSubmit`: the sequential loop over the parsed CSV rows,
parameterised by the outcome `api` of each `/api/posts` call.  (The
`csvData.length === 0` guard only raises a banner before any work; the
accumulated state for an empty list is the same empty state.) -/
def handleBulkSubmit (pages : List FacebookPage) (jsDateFallback : String → Option JSDate)
    (api : BulkPayload → Bool) (rows : List CSVRow) : BulkState :=
  rows.foldl (bulkStep pages jsDateFallback api) ⟨0, [], []⟩

/-! ## Create-post route handler (`POST /api/posts`) -/

/-- The local calendar date of a JavaScript `Date` value, as read by
`getFullYear()` / `getMonth()` (0-based) / `getDate()`. -/
structure SDate where
  year : Int
  month : Int
  day : Int
deriving DecidableEq, Repr

/-- `isScheduledForToday` from the create-post handler: absent
`scheduled_for` is never "today"; a present timestamp is compared with
"now" on year, month and day (local). -/
def isScheduledForToday (scheduled_for : Option SDate) (today : SDate) : Bool :=
  match scheduled_for with
  | none => false
  | some d =>
    (d.year = today.year : Bool) && (d.month = today.month : Bool) &&
      (d.day = today.day : Bool)

/-- A create-post request body, with `scheduled_for` abstracted to the
local calendar date `new Date(scheduled_for)` yields (`none` when the
field is absent or empty). -/
structure CreateReq where
  facebook_page_id : String
  franchise_name : String
  post_content : String
  link_url : Option String
  scheduled_for : Option SDate
  location_number : Option String
  publish_now : Bool
deriving DecidableEq, Repr

/-- A stored `facebook_scheduled_posts` row as the handler inserts it. -/
structure StoredPost where
  facebook_page_id : String
  franchise_name : String
  location_number : Option String
  post_content : String
  link_url : Option String
  scheduled_for : Option SDate
  status : String
  published_at : Option String
deriving DecidableEq, Repr

/-- The observable outcome of the create-post handler: whether the n8n
webhook was called, the row inserted into the store (`none` when nothing
was inserted), and whether the HTTP response was a success. -/
structure CreateOutcome where
  webhookCalled : Bool
  stored : Option StoredPost
  ok : Bool
deriving DecidableEq, Repr

/-- The row inserted by the immediate branch of the handler: status
`'published'` with `published_at` set only under `publish_now`. -/
def immediateStoreData (req : CreateReq) (nowIso : String) : StoredPost :=
  { facebook_page_id := req.facebook_page_id
    franchise_name := req.franchise_name
    location_number := req.location_number
    post_content := req.post_content
    link_url := req.link_url
    scheduled_for := req.scheduled_for
    status := if req.publish_now then "published" else "pending"
    published_at := if req.publish_now then some nowIso else none }

/-- The row inserted by the store-only branch: always status `'pending'`,
no `published_at`. -/
def storeOnlyData (req : CreateReq) : StoredPost :=
  { facebook_page_id := req.facebook_page_id
    franchise_name := req.franchise_name
    location_number := req.location_number
    post_content := req.post_content
    link_url := req.link_url
    scheduled_for := req.scheduled_for
    status := "pending"
    published_at := none }

/-- `POST /api/posts` (the create-post handler of the posts route).
Parameters model the collaborators: `webhookConfigured` is whether
`N8N_WEBHOOK_URL` is set, `webhookOk` the n8n response, `storeOk` the
Supabase insert response.

* missing `facebook_page_id` or `post_content` ⇒ 400, nothing happens;
* `publish_now || isScheduledForToday(...)` ⇒ webhook call; webhook
  failure ⇒ 500 with nothing stored; webhook success ⇒ insert
  `immediateStoreData` (a failed insert still answers success);
* otherwise ⇒ insert `storeOnlyData` only, the response mirroring the
  store's. -/
def createPost (webhookConfigured webhookOk storeOk : Bool) (today : SDate)
    (nowIso : String) (req : CreateReq) : CreateOutcome :=
  if jsFalsy req.facebook_page_id || jsFalsy req.post_content then
    { webhookCalled := false, stored := none, ok := false }
  else if req.publish_now || isScheduledForToday req.scheduled_for today then
    if !webhookConfigured then
      { webhookCalled := false, stored := none, ok := false }
    else if !webhookOk then
      { webhookCalled := true, stored := none, ok := false }
    else
      { webhookCalled := true
        stored := if storeOk then some (immediateStoreData req nowIso) else none
        ok := true }
  else
    { webhookCalled := false
      stored := if storeOk then some (storeOnlyData req) else none
      ok := storeOk }

/-! ## Publish and delete handlers, over an explicit store -/

/-- A row of the `facebook_scheduled_posts` table as the handlers read
it. -/
structure DBPost where
  id : String
  facebook_page_id : String
  franchise_name : String
  post_content : String
  link_url : Option String
  status : String
  published_at : Option String
deriving DecidableEq, Repr

/-- The store's `PATCH ?id=eq.pid` (PostgREST): apply the field update to
every row matching the filter. -/
def patchPost (store : List DBPost) (pid : String) (f : DBPost → DBPost) : List DBPost :=
  store.map (fun p => if p.id = pid then f p else p)

/-- The store's `DELETE ?id=eq.pid` (PostgREST): delete every row
matching the filter.  PostgREST reports success for a filtered delete
whether or not any row matched — a zero-row delete is an ordinary 2xx,
not an error — so the model returns only the remaining rows. -/
def supabaseDelete (store : List DBPost) (pid : String) : List DBPost :=
  store.filter (fun p => !(p.id = pid : Bool))

/-- `GET /api/posts` returns every stored row (ordered by `created_at`
descending; the ordering is irrelevant to the membership claims and the
model keeps store order). -/
def listPosts (store : List DBPost) : List DBPost := store

/-- Responses of the publish handler. -/
inductive PublishResult where
  | missingId
  | notConfigured
  | notFound
  | webhookError
  | success
deriving DecidableEq, Repr

/-- `POST /api/publish`: look the post up by id (404 when absent), call
the n8n webhook with its content; on webhook failure patch the status to
`'failed'` and answer 500; on webhook success patch the status to
`'published'` with `published_at` and answer success.  The handler never
reads the post's current status.  (`webhookConfigured`/`webhookOk` model
the collaborators; store reads and patches are modelled as succeeding —
their failure handling is orthogonal to the claimed transitions.) -/
def publishPost (webhookConfigured webhookOk : Bool) (nowIso : String)
    (store : List DBPost) (post_id : String) : PublishResult × List DBPost :=
  if jsFalsy post_id then (.missingId, store)
  else if !webhookConfigured then (.notConfigured, store)
  else
    match store.find? (fun p => p.id = post_id) with
    | none => (.notFound, store)
    | some _ =>
      if !webhookOk then
        (.webhookError, patchPost store post_id (fun p => { p with status := "failed" }))
      else
        (.success,
          patchPost store post_id
            (fun p => { p with status := "published", published_at := some nowIso }))

/-- Responses of the delete handler. -/
inductive DeleteResult where
  | missingId
  | storeError
  | success
deriving DecidableEq, Repr

/-- `DELETE /api/posts?id=...`: 400 when the `id` query parameter is
absent or empty; otherwise forward the filtered delete to the store and
mirror the store's response (`storeOk` models a store-side failure such
as an unreachable service; a zero-row delete is not such a failure). -/
def deletePost (storeOk : Bool) (store : List DBPost) (idParam : Option String) :
    DeleteResult × List DBPost :=
  match idParam with
  | none => (.missingId, store)
  | some pid =>
    if jsFalsy pid then (.missingId, store)
    else if !storeOk then (.storeError, store)
    else (.success, supabaseDelete store pid)

/-! ## Theorems -/

/-- C1: For every create-post request (with the required fields present
and the webhook configured), the dispatch decision is: if `publish_now`
is true the immediate path (webhook call) is taken regardless of any
scheduled timestamp; else if a scheduled timestamp is present whose local
calendar date (year, month, day) equals today's, the immediate path is
taken; else if a scheduled timestamp is present the record is stored only
(scheduled path, no dispatch); else the record is stored only as a draft
with no dispatch. -/
theorem create_post_dispatch_decision
    (webhookOk : Bool) (today : SDate) (nowIso : String) (req : CreateReq)
    (hpid : jsFalsy req.facebook_page_id = false)
    (hpc : jsFalsy req.post_content = false) :
    (req.publish_now = true →
      (createPost true webhookOk true today nowIso req).webhookCalled = true) ∧
    (req.publish_now = false →
      ∀ d, req.scheduled_for = some d →
        (d.year = today.year ∧ d.month = today.month ∧ d.day = today.day →
          (createPost true webhookOk true today nowIso req).webhookCalled = true) ∧
        (¬(d.year = today.year ∧ d.month = today.month ∧ d.day = today.day) →
          (createPost true webhookOk true today nowIso req).webhookCalled = false ∧
          (createPost true webhookOk true today nowIso req).stored =
            some (storeOnlyData req))) ∧
    (req.publish_now = false → req.scheduled_for = none →
      (createPost true webhookOk true today nowIso req).webhookCalled = false ∧
      (createPost true webhookOk true today nowIso req).stored = some (storeOnlyData req) ∧
      (storeOnlyData req).status = "pending") := by
  refine ⟨?_, ?_, ?_⟩
  · intro hpn
    cases webhookOk <;> simp [createPost, hpid, hpc, hpn]
  · intro hpn d hsf
    constructor
    · rintro ⟨hy, hm, hd⟩
      cases webhookOk <;>
        simp [createPost, hpid, hpc, hpn, hsf, isScheduledForToday, hy, hm, hd]
    · intro hne
      have htod : isScheduledForToday (some d) today = false := by
        simp [isScheduledForToday]
        intro hy hm
        intro hcontra
        exact hne ⟨hy, hm, hcontra⟩
      simp [createPost, hpid, hpc, hpn, hsf, htod, storeOnlyData]
  · intro hpn hsf
    simp [createPost, hpid, hpc, hpn, hsf, isScheduledForToday, storeOnlyData]

/-- Witness for C1 at a concrete request: `publish_now = false` with a
next-day timestamp is stored only. -/
theorem create_post_dispatch_decision_witness :
    jsFalsy (CreateReq.facebook_page_id
        ⟨"fb1", "Alpha", "hello", none, some ⟨2025, 0, 21⟩, none, false⟩) = false ∧
    (createPost true true true ⟨2025, 0, 20⟩ "now"
        ⟨"fb1", "Alpha", "hello", none, some ⟨2025, 0, 21⟩, none, false⟩).webhookCalled =
      false :=
  ⟨by decide,
    ((create_post_dispatch_decision true ⟨2025, 0, 20⟩ "now"
        ⟨"fb1", "Alpha", "hello", none, some ⟨2025, 0, 21⟩, none, false⟩
        (by decide) (by decide)).2.1 rfl ⟨2025, 0, 21⟩ rfl).2 (by decide) |>.1⟩

/-- C10: a same-day, not-publish-now request invokes the webhook but the
stored record keeps status `'pending'` with no `published_at`; across all
create-post requests the stored status is `'published'` with
`published_at` set exactly when `publish_now` is true. -/
theorem create_post_stored_status
    (today : SDate) (nowIso : String) (req : CreateReq)
    (hpid : jsFalsy req.facebook_page_id = false)
    (hpc : jsFalsy req.post_content = false) :
    (req.publish_now = false → isScheduledForToday req.scheduled_for today = true →
      (createPost true true true today nowIso req).webhookCalled = true ∧
      ∃ p, (createPost true true true today nowIso req).stored = some p ∧
        p.status = "pending" ∧ p.published_at = none) ∧
    (∀ p, (createPost true true true today nowIso req).stored = some p →
      ((p.status = "published" ∧ p.published_at ≠ none) ↔ req.publish_now = true)) := by
  constructor
  · intro hpn htod
    refine ⟨by simp [createPost, hpid, hpc, hpn, htod], immediateStoreData req nowIso, ?_⟩
    simp [createPost, hpid, hpc, hpn, htod, immediateStoreData]
  · intro p hp
    by_cases hpn : req.publish_now = true
    · simp only [createPost, hpid, hpc, hpn] at hp
      simp only [Bool.false_or, Bool.true_or, if_true, if_false] at hp
      simp at hp
      subst hp
      simp [immediateStoreData, hpn]
    · have hpn' : req.publish_now = false := by
        cases h : req.publish_now
        · rfl
        · exact absurd h hpn
      by_cases htod : isScheduledForToday req.scheduled_for today = true
      · simp only [createPost, hpid, hpc, hpn', htod] at hp
        simp at hp
        subst hp
        simp [immediateStoreData, hpn']
      · have htod' : isScheduledForToday req.scheduled_for today = false := by
          cases h : isScheduledForToday req.scheduled_for today
          · rfl
          · exact absurd h htod
        simp only [createPost, hpid, hpc, hpn', htod'] at hp
        simp at hp
        subst hp
        simp [storeOnlyData, hpn']

/-- Witness for C10: a request scheduled for today with
`publish_now = false` calls the webhook and stores a pending record. -/
theorem create_post_stored_status_witness :
    (createPost true true true ⟨2025, 0, 20⟩ "now"
        ⟨"fb1", "Alpha", "hello", none, some ⟨2025, 0, 20⟩, none, false⟩).webhookCalled =
      true ∧
    ∃ p, (createPost true true true ⟨2025, 0, 20⟩ "now"
        ⟨"fb1", "Alpha", "hello", none, some ⟨2025, 0, 20⟩, none, false⟩).stored = some p ∧
      p.status = "pending" ∧ p.published_at = none :=
  (create_post_stored_status ⟨2025, 0, 20⟩ "now"
      ⟨"fb1", "Alpha", "hello", none, some ⟨2025, 0, 20⟩, none, false⟩
      (by decide) (by decide)).1 rfl (by decide)

/-- A concrete stored post used in the delete-handler statements. -/
def samplePost : DBPost :=
  { id := "a", facebook_page_id := "fb1", franchise_name := "Alpha",
    post_content := "hello", link_url := none, status := "pending", published_at := none }

/-- Counterexample to C3: deleting the non-existent id `"b"` from a store
holding only the post `"a"` answers success and changes nothing — the
handler forwards the store's status and a zero-row filtered delete
succeeds, so no failure is surfaced. -/
theorem delete_nonexistent_is_silent_success :
    deletePost true [samplePost] (some "b") = (.success, [samplePost]) := by decide

/-- C3 (amended): deleting a post by id removes it from subsequent list
results; a delete with a present id always answers success when the store
is reachable, whether or not any row matched. -/
theorem delete_post_removes_from_list (store : List DBPost) (pid : String)
    (hpid : jsFalsy pid = false) :
    (deletePost true store (some pid)).1 = .success ∧
    ∀ p ∈ listPosts (deletePost true store (some pid)).2, p.id ≠ pid := by
  constructor
  · simp [deletePost, hpid]
  · intro p hp
    simp [deletePost, hpid, listPosts, supabaseDelete, List.mem_filter] at hp
    exact hp.2

/-- Witness for C3 (amended) at a concrete store: deleting `"a"` removes
it from the listing. -/
theorem delete_post_removes_from_list_witness :
    jsFalsy "a" = false ∧
    ((deletePost true [samplePost] (some "a")).1 = .success ∧
      ∀ p ∈ listPosts (deletePost true [samplePost] (some "a")).2, p.id ≠ "a") :=
  ⟨by decide, delete_post_removes_from_list [samplePost] "a" (by decide)⟩

/-- A concrete already-published post used in the publish-handler
statements. -/
def publishedPost : DBPost :=
  { id := "p1", facebook_page_id := "fb1", franchise_name := "Alpha",
    post_content := "hello", link_url := none, status := "published",
    published_at := some "t0" }

/-- Counterexample to C9: the publish handler never checks the current
status, so invoking it on an already-`'published'` post with a failing
webhook moves that post to `'failed'` — an operation does move a post out
of `'published'`. -/
theorem publish_moves_published_post_to_failed :
    publishedPost.status = "published" ∧
    publishPost true false "t1" [publishedPost] "p1" =
      (.webhookError,
        [{ id := "p1", facebook_page_id := "fb1", franchise_name := "Alpha",
           post_content := "hello", link_url := none, status := "failed",
           published_at := some "t0" }]) := by decide

/-- C9 (amended): the explicit publish action performs the stated
transitions regardless of the post's prior status: on webhook success the
post's status becomes `'published'` with `published_at` set, on webhook
failure its status becomes `'failed'` and an error is returned, other
posts are untouched; there is no automatic retry, but the endpoint does
not guard on the current status, so re-invoking it on a `'published'` or
`'failed'` post re-dispatches and overwrites its status. -/
lemma patchPost_mem (store : List DBPost) (pid : String) (f : DBPost → DBPost)
    (hf : ∀ p, (f p).id = p.id) (q : DBPost) (hq : q ∈ patchPost store pid f) :
    (q.id = pid → ∃ p, p ∈ store ∧ p.id = pid ∧ q = f p) ∧ (q.id ≠ pid → q ∈ store) := by
  simp only [patchPost] at hq
  rcases List.mem_map.1 hq with ⟨p, hp, rfl⟩
  by_cases h : p.id = pid
  · rw [if_pos h]
    refine ⟨fun _ => ⟨p, hp, h, rfl⟩, fun hne => absurd ?_ hne⟩
    rw [hf p, h]
  · rw [if_neg h]
    exact ⟨fun heq => absurd heq h, fun _ => hp⟩

theorem publish_post_transitions
    (webhookOk : Bool) (nowIso : String) (store : List DBPost) (pid : String)
    (post : DBPost) (hpid : jsFalsy pid = false)
    (hfind : store.find? (fun p => p.id = pid) = some post) :
    (webhookOk = true →
      (publishPost true webhookOk nowIso store pid).1 = .success ∧
      ∀ q ∈ (publishPost true webhookOk nowIso store pid).2,
        q.id = pid → q.status = "published" ∧ q.published_at = some nowIso) ∧
    (webhookOk = false →
      (publishPost true webhookOk nowIso store pid).1 = .webhookError ∧
      ∀ q ∈ (publishPost true webhookOk nowIso store pid).2,
        q.id = pid → q.status = "failed") ∧
    (∀ q ∈ (publishPost true webhookOk nowIso store pid).2, q.id ≠ pid → q ∈ store) := by
  refine ⟨?_, ?_, ?_⟩
  · rintro rfl
    refine ⟨by simp [publishPost, hpid, hfind], ?_⟩
    intro q hq hqid
    simp only [publishPost, hpid] at hq
    rw [if_neg (by simp), if_neg (by simp), hfind] at hq
    have hq' : q ∈ patchPost store pid
        (fun p => { p with status := "published", published_at := some nowIso }) := hq
    rcases (patchPost_mem store pid
        (fun p => { p with status := "published", published_at := some nowIso })
        (fun p => rfl) q hq').1 hqid with ⟨p, _, _, rfl⟩
    exact ⟨rfl, rfl⟩
  · rintro rfl
    refine ⟨by simp [publishPost, hpid, hfind], ?_⟩
    intro q hq hqid
    simp only [publishPost, hpid] at hq
    rw [if_neg (by simp), if_neg (by simp), hfind] at hq
    have hq' : q ∈ patchPost store pid (fun p => { p with status := "failed" }) := hq
    rcases (patchPost_mem store pid (fun p => { p with status := "failed" })
        (fun p => rfl) q hq').1 hqid with ⟨p, _, _, rfl⟩
    rfl
  · intro q hq hqid
    cases webhookOk
    · simp only [publishPost, hpid] at hq
      rw [if_neg (by simp), if_neg (by simp), hfind] at hq
      have hq' : q ∈ patchPost store pid (fun p => { p with status := "failed" }) := hq
      exact (patchPost_mem store pid (fun p => { p with status := "failed" })
        (fun p => rfl) q hq').2 hqid
    · simp only [publishPost, hpid] at hq
      rw [if_neg (by simp), if_neg (by simp), hfind] at hq
      have hq' : q ∈ patchPost store pid
          (fun p => { p with status := "published", published_at := some nowIso }) := hq
      exact (patchPost_mem store pid
        (fun p => { p with status := "published", published_at := some nowIso })
        (fun p => rfl) q hq').2 hqid

/-- Witness for C9 (amended) at a concrete pending post with a
successful webhook. -/
theorem publish_post_transitions_witness :
    jsFalsy "a" = false ∧
    ((publishPost true true "t1" [samplePost] "a").1 = .success ∧
      ∀ q ∈ (publishPost true true "t1" [samplePost] "a").2,
        q.id = "a" → q.status = "published" ∧ q.published_at = some "t1") :=
  ⟨by decide,
    (publish_post_transitions true "t1" [samplePost] "a" samplePost (by decide)
        (by decide)).1 rfl⟩

lemma jsFalsy_jsTrim_of_jsFalsy (s : String) (h : jsFalsy s = true) :
    jsFalsy (jsTrim s) = true := by
  have hnil : s.toList = [] := by
    simpa [jsFalsy, List.isEmpty_iff] using h
  simp only [jsTrim, hnil]
  rfl

lemma jsFalsy_of_trim_truthy (s : String) (h : jsFalsy (jsTrim s) = false) :
    jsFalsy s = false := by
  cases hs : jsFalsy s
  · rfl
  · rw [jsFalsy_jsTrim_of_jsFalsy s hs] at h
    exact absurd h (by simp)

lemma truthy_guard (s : String) :
    (!jsFalsy s && !jsFalsy (jsTrim s)) = !jsFalsy (jsTrim s) := by
  cases hs : jsFalsy s
  · simp
  · simp [jsFalsy_jsTrim_of_jsFalsy s hs]

/-- The first destination of the spec's resolution example:
code `"1234"`, name `"Alpha"`. -/
def alphaPage : FacebookPage :=
  { id := "1", location_name := "Alpha", location_number := some "1234",
    facebook_page_id := "fbA" }

/-- The second destination of the spec's resolution example:
code `"5678"`, name `"Beta"`. -/
def betaPage : FacebookPage :=
  { id := "2", location_name := "Beta", location_number := some "5678",
    facebook_page_id := "fbB" }

/-- The CSV row of the spec's resolution example: code `"1234"` with the
conflicting name `"Beta"`. -/
def conflictRow : CSVRow :=
  { location_name := "Beta", location_number := "1234", post_content := "x",
    link_url := "", scheduled_for := "", media_type := "", media_url := "" }

lemma resolvePage_eq (pages : List FacebookPage) (row : CSVRow) :
    resolvePage pages row =
      (if jsFalsy (jsTrim row.location_number) = false then
        match findPageByNumber pages row.location_number with
        | some p => some p
        | none =>
          if jsFalsy (jsTrim row.location_name) = false then
            findPageByName pages row.location_name
          else none
      else
        if jsFalsy (jsTrim row.location_name) = false then
          findPageByName pages row.location_name
        else none) := by
  unfold resolvePage
  rw [truthy_guard, truthy_guard]
  cases h1 : jsFalsy (jsTrim row.location_number)
  · cases hf : findPageByNumber pages row.location_number <;>
      cases h2 : jsFalsy (jsTrim row.location_name) <;> simp [hf, h2]
  · cases h2 : jsFalsy (jsTrim row.location_name) <;> simp [h2]

/-- C4: resolution matches the row's `location_number` against the
destinations' codes first, and only when that field is blank (empty or
whitespace) or no code matches falls back to the case-insensitive name
match; in particular, for destinations Alpha(code 1234) and
Beta(code 5678), the row (code 1234, name Beta) resolves to Alpha. -/
theorem resolve_page_precedence (pages : List FacebookPage) (row : CSVRow) :
    (jsFalsy (jsTrim row.location_number) = false →
      ∀ p, findPageByNumber pages row.location_number = some p →
        resolvePage pages row = some p) ∧
    ((jsFalsy (jsTrim row.location_number) = true ∨
        findPageByNumber pages row.location_number = none) →
      resolvePage pages row =
        (if jsFalsy (jsTrim row.location_name) = false then
          findPageByName pages row.location_name
        else none)) ∧
    resolvePage [alphaPage, betaPage] conflictRow = some alphaPage := by
  refine ⟨?_, ?_, by decide⟩
  · intro htrim p hfind
    rw [resolvePage_eq, if_pos htrim, hfind]
  · intro hcase
    rw [resolvePage_eq]
    rcases hcase with htrim | hfind
    · rw [if_neg (by simp [htrim])]
    · cases h1 : jsFalsy (jsTrim row.location_number)
      · rw [if_pos rfl, hfind]
      · rw [if_neg (by simp [h1])]

/-- Witness for C4: the concrete precedence instance, discharged through
the general precedence statement. -/
theorem resolve_page_precedence_witness :
    jsFalsy (jsTrim conflictRow.location_number) = false ∧
    resolvePage [alphaPage, betaPage] conflictRow = some alphaPage :=
  ⟨by decide,
    (resolve_page_precedence [alphaPage, betaPage] conflictRow).1 (by decide)
      alphaPage (by decide)⟩

/-- C5: the scheduled-for parser accepts `MM/DD/YYYY` optionally followed
by `HH:MM` and optional AM/PM, with hour defaulting to 9 and minute to 0
when the time is omitted; text not matching that shape goes to the
generic date parse, and unparseable text yields `none` (draft path)
without raising; in particular `"01/20/2025 2:00 PM"` parses to 14:00
local time on 2025-01-20 and `"soon"` (invalid for the generic parse) is
treated as absent. -/
theorem parse_scheduled_date_spec (jsDateFallback : String → Option JSDate) :
    parseScheduledDate jsDateFallback "01/20/2025 2:00 PM" =
      some { year := 2025, monthIndex := 0, day := 20, hour := 14, minute := 0 } ∧
    parseScheduledDate jsDateFallback "01/20/2025" =
      some { year := 2025, monthIndex := 0, day := 20, hour := 9, minute := 0 } ∧
    parseScheduledDate jsDateFallback "12/31/2025 12:05 AM" =
      some { year := 2025, monthIndex := 11, day := 31, hour := 0, minute := 5 } ∧
    (∀ s, matchDateTime s = none → jsFalsy (jsTrim s) = false →
      parseScheduledDate jsDateFallback s = jsDateFallback s) ∧
    (jsDateFallback "soon" = none →
      parseScheduledDate jsDateFallback "soon" = none) := by
  refine ⟨rfl, rfl, rfl, ?_, ?_⟩
  · intro s hm hne
    have hs := jsFalsy_of_trim_truthy s hne
    simp [parseScheduledDate, hs, hne, hm]
  · intro hfb
    have h : parseScheduledDate jsDateFallback "soon" = jsDateFallback "soon" := rfl
    rw [h, hfb]

/-- Witness for C5 with the always-invalid generic parse. -/
theorem parse_scheduled_date_spec_witness :
    (fun _ : String => (none : Option JSDate)) "soon" = none ∧
    parseScheduledDate (fun _ => none) "soon" = none :=
  ⟨rfl, (parse_scheduled_date_spec (fun _ => none)).2.2.2.2 rfl⟩

lemma parseCSV_ok_eq (text : String)
    (hlen : 2 ≤ (csvLines text).length)
    (hloc : (parseHeaders ((csvLines text).headD "")).contains "location_name" = true ∨
      (parseHeaders ((csvLines text).headD "")).contains "location_number" = true)
    (hpc : (parseHeaders ((csvLines text).headD "")).contains "post_content" = true) :
    parseCSV text =
      .ok (((csvLines text).drop 1).filterMap
        (lineToRow (parseHeaders ((csvLines text).headD "")))) := by
  simp only [parseCSV]
  rw [if_neg (by omega), if_neg (not_not_intro hloc), if_neg (not_not_intro hpc)]

lemma filterMap_all_some_length {α β : Type} (f : α → Option β) :
    ∀ l : List α, (∀ a ∈ l, (f a).isSome = true) → (l.filterMap f).length = l.length := by
  intro l
  induction l with
  | nil => intro _; rfl
  | cons a l ih =>
    intro h
    have ha : (f a).isSome = true := h a (by simp)
    rcases hfa : f a with _ | b
    · rw [hfa] at ha
      exact absurd ha (by simp)
    · rw [List.filterMap_cons, hfa]
      simp only [List.length_cons]
      rw [ih (fun x hx => h x (by simp [hx]))]

/-- Counterexample to C2: an input consisting only of a header line (with
both required columns present) raises the top-level error "CSV must have a
header row and at least one data row" instead of yielding zero rows. -/
theorem parse_csv_header_only_errors :
    parseCSV "location_name,post_content" =
      .error "CSV must have a header row and at least one data row" := by decide

/-- C2 (amended): for CSV text with at least one data line whose header
contains `post_content` and one of `location_name`/`location_number`,
parsing yields exactly the records of the valid data lines, in input
order (one record per valid data line); a header-only input is instead
rejected with a top-level error, as the counterexample shows. -/
theorem parse_csv_one_row_per_valid_line (text : String)
    (hlen : 2 ≤ (csvLines text).length)
    (hloc : (parseHeaders ((csvLines text).headD "")).contains "location_name" = true ∨
      (parseHeaders ((csvLines text).headD "")).contains "location_number" = true)
    (hpc : (parseHeaders ((csvLines text).headD "")).contains "post_content" = true) :
    parseCSV text =
      .ok (((csvLines text).drop 1).filterMap
        (lineToRow (parseHeaders ((csvLines text).headD "")))) ∧
    ((∀ l ∈ (csvLines text).drop 1,
        (lineToRow (parseHeaders ((csvLines text).headD "")) l).isSome = true) →
      (((csvLines text).drop 1).filterMap
          (lineToRow (parseHeaders ((csvLines text).headD "")))).length =
        ((csvLines text).drop 1).length) :=
  ⟨parseCSV_ok_eq text hlen hloc hpc,
    filterMap_all_some_length _ ((csvLines text).drop 1)⟩

/-- Witness for C2 (amended) on a two-data-line input. -/
theorem parse_csv_one_row_per_valid_line_witness :
    2 ≤ (csvLines "location_name,post_content\nAlpha,hi\nBeta,yo").length ∧
    parseCSV "location_name,post_content\nAlpha,hi\nBeta,yo" =
      .ok (((csvLines "location_name,post_content\nAlpha,hi\nBeta,yo").drop 1).filterMap
        (lineToRow (parseHeaders
          ((csvLines "location_name,post_content\nAlpha,hi\nBeta,yo").headD "")))) :=
  ⟨by decide,
    (parse_csv_one_row_per_valid_line "location_name,post_content\nAlpha,hi\nBeta,yo"
      (by decide) (by decide) (by decide)).1⟩

/-- Counterexample to C7: an input whose header does contain the required
columns but which has fewer than two non-blank lines still makes parsing
fail with a single top-level error — so parsing does not fail *exactly*
when a required column is absent. -/
theorem parse_csv_error_without_missing_column :
    parseCSV "post_content,location_name" =
      .error "CSV must have a header row and at least one data row" ∧
    (parseHeaders "post_content,location_name").contains "post_content" = true ∧
    (parseHeaders "post_content,location_name").contains "location_name" = true := by
  decide

/-- C7 (amended): parsing fails fast with a single top-level error and
produces no rows exactly when the input has fewer than two non-blank
lines or a required column is absent from the header (the content column
always required, at least one destination-identifying column required);
with enough lines, a missing destination column or a missing content
column produces the corresponding single error. -/
theorem parse_csv_fail_fast (text : String) :
    ((∃ e, parseCSV text = .error e) ↔
      ((csvLines text).length < 2 ∨
        ((parseHeaders ((csvLines text).headD "")).contains "location_name" = false ∧
          (parseHeaders ((csvLines text).headD "")).contains "location_number" = false) ∨
        (parseHeaders ((csvLines text).headD "")).contains "post_content" = false)) ∧
    (2 ≤ (csvLines text).length →
      (parseHeaders ((csvLines text).headD "")).contains "location_name" = false →
      (parseHeaders ((csvLines text).headD "")).contains "location_number" = false →
      parseCSV text = .error "Missing required column: location_name or location_number") ∧
    (2 ≤ (csvLines text).length →
      ((parseHeaders ((csvLines text).headD "")).contains "location_name" = true ∨
        (parseHeaders ((csvLines text).headD "")).contains "location_number" = true) →
      (parseHeaders ((csvLines text).headD "")).contains "post_content" = false →
      parseCSV text = .error "Missing required column: post_content") := by
  refine ⟨⟨?_, ?_⟩, ?_, ?_⟩
  · rintro ⟨e, he⟩
    by_cases hlen : (csvLines text).length < 2
    · exact Or.inl hlen
    · right
      by_cases hloc : ((parseHeaders ((csvLines text).headD "")).contains "location_name" = true ∨
          (parseHeaders ((csvLines text).headD "")).contains "location_number" = true)
      · right
        by_cases hpc : (parseHeaders ((csvLines text).headD "")).contains "post_content" = true
        · exfalso
          rw [parseCSV_ok_eq text (by omega) hloc hpc] at he
          exact Except.noConfusion he
        · simpa using hpc
      · rw [not_or] at hloc
        exact Or.inl ⟨by simpa using hloc.1, by simpa using hloc.2⟩
  · rintro (hlen | ⟨h1, h2⟩ | hp)
    · exact ⟨_, by simp only [parseCSV]; rw [if_pos hlen]⟩
    · by_cases hlen : (csvLines text).length < 2
      · exact ⟨_, by simp only [parseCSV]; rw [if_pos hlen]⟩
      · exact ⟨_, by
          simp only [parseCSV]
          rw [if_neg hlen,
            if_pos (not_or.mpr ⟨by simpa using h1, by simpa using h2⟩)]⟩
    · by_cases hlen : (csvLines text).length < 2
      · exact ⟨_, by simp only [parseCSV]; rw [if_pos hlen]⟩
      · by_cases hloc : ((parseHeaders ((csvLines text).headD "")).contains "location_name" = true ∨
            (parseHeaders ((csvLines text).headD "")).contains "location_number" = true)
        · exact ⟨_, by
            simp only [parseCSV]
            rw [if_neg hlen, if_neg (not_not_intro hloc), if_pos (by simpa using hp)]⟩
        · exact ⟨_, by simp only [parseCSV]; rw [if_neg hlen, if_pos hloc]⟩
  · intro hlen h1 h2
    simp only [parseCSV]
    rw [if_neg (by omega), if_pos (not_or.mpr ⟨by simpa using h1, by simpa using h2⟩)]
  · intro hlen hloc hp
    simp only [parseCSV]
    rw [if_neg (by omega), if_neg (not_not_intro hloc), if_pos (by simpa using hp)]

/-- Witness for C7 (amended): a two-line input missing both destination
columns fails with the missing-column error. -/
theorem parse_csv_fail_fast_witness :
    2 ≤ (csvLines "post_content\nhello").length ∧
    parseCSV "post_content\nhello" =
      .error "Missing required column: location_name or location_number" :=
  ⟨by decide,
    (parse_csv_fail_fast "post_content\nhello").2.1 (by decide) (by decide) (by decide)⟩

lemma foldl_csvLineStep_inQuotes (cs : List Char) (h : ∀ c ∈ cs, c ≠ '"') :
    ∀ (vs : List String) (cur : List Char),
      cs.foldl csvLineStep (vs, cur, true) = (vs, cur ++ cs, true) := by
  induction cs with
  | nil => intro vs cur; simp
  | cons c cs ih =>
    intro vs cur
    rw [List.foldl_cons]
    have hc : c ≠ '"' := h c (by simp)
    have hstep : csvLineStep (vs, cur, true) c = (vs, cur ++ [c], true) := by
      simp [csvLineStep, hc]
    rw [hstep, ih (fun x hx => h x (by simp [hx])) vs (cur ++ [c])]
    simp

lemma foldl_csvLineStep_shift (cs : List Char) :
    ∀ (vs vs' : List String) (cur : List Char) (q : Bool),
      cs.foldl csvLineStep (vs ++ vs', cur, q) =
        (vs ++ (cs.foldl csvLineStep (vs', cur, q)).1,
          (cs.foldl csvLineStep (vs', cur, q)).2) := by
  induction cs with
  | nil => intro vs vs' cur q; simp
  | cons c cs ih =>
    intro vs vs' cur q
    rw [List.foldl_cons, List.foldl_cons]
    by_cases h1 : c = '"'
    · have e1 : csvLineStep (vs ++ vs', cur, q) c = (vs ++ vs', cur, !q) := by
        simp [csvLineStep, h1]
      have e2 : csvLineStep (vs', cur, q) c = (vs', cur, !q) := by
        simp [csvLineStep, h1]
      rw [e1, e2, ih]
    · by_cases h2 : c = ',' ∧ q = false
      · have e1 : csvLineStep (vs ++ vs', cur, q) c =
            ((vs ++ vs') ++ [⟨jsTrimList cur⟩], [], q) := by
          simp [csvLineStep, h1, h2.1, h2.2]
        have e2 : csvLineStep (vs', cur, q) c = (vs' ++ [⟨jsTrimList cur⟩], [], q) := by
          simp [csvLineStep, h1, h2.1, h2.2]
        rw [e1, e2, List.append_assoc, ih]
      · have e1 : csvLineStep (vs ++ vs', cur, q) c = (vs ++ vs', cur ++ [c], q) := by
          simp [csvLineStep, h1, h2]
        have e2 : csvLineStep (vs', cur, q) c = (vs', cur ++ [c], q) := by
          simp [csvLineStep, h1, h2]
        rw [e1, e2, ih]

lemma parseCSVLine_quoted_head (cs : List Char) (rest : String)
    (h : ∀ c ∈ cs, c ≠ '"') :
    parseCSVLine ⟨'"' :: (cs ++ '"' :: ',' :: rest.toList)⟩ =
      (⟨jsTrimList cs⟩ : String) :: parseCSVLine rest := by
  have hfold :
      ('"' :: (cs ++ '"' :: ',' :: rest.toList)).foldl csvLineStep ([], [], false) =
        ([⟨jsTrimList cs⟩] ++ (rest.toList.foldl csvLineStep ([], [], false)).1,
          (rest.toList.foldl csvLineStep ([], [], false)).2) := by
    rw [List.foldl_cons]
    have e1 : csvLineStep ([], [], false) '"' = ([], [], true) := by simp [csvLineStep]
    rw [e1, List.foldl_append, foldl_csvLineStep_inQuotes cs h [] []]
    simp only [List.nil_append]
    rw [List.foldl_cons, List.foldl_cons]
    have e2 : csvLineStep ([], cs, true) '"' = ([], cs, false) := by simp [csvLineStep]
    rw [e2]
    have e3 : csvLineStep ([], cs, false) ',' = ([⟨jsTrimList cs⟩], [], false) := by
      simp [csvLineStep]
    rw [e3]
    simpa using foldl_csvLineStep_shift rest.toList [⟨jsTrimList cs⟩] [] [] false
  unfold parseCSVLine
  rw [show (⟨'"' :: (cs ++ '"' :: ',' :: rest.toList)⟩ : String).toList =
      '"' :: (cs ++ '"' :: ',' :: rest.toList) from rfl]
  rw [hfold]
  rcases hrest : rest.toList.foldl csvLineStep ([], [], false) with ⟨vs, cur, q⟩
  simp

/-- C8: the field scanner splits on commas with a quote character
toggling an inside-quoted-field mode, so embedded commas are not
separators (a fully quoted field followed by a comma contributes exactly
one field); a line whose field count differs from the header's is skipped
(`none`) while parsing continues, and parsing with a valid header never
raises for the whole file; in particular an input with a mismatched
middle line still yields the rows of the remaining valid lines, with a
quoted embedded comma intact. -/
theorem csv_quote_aware_and_row_skip :
    (∀ (cs : List Char) (rest : String), (∀ c ∈ cs, c ≠ '"') →
      parseCSVLine ⟨'"' :: (cs ++ '"' :: ',' :: rest.toList)⟩ =
        (⟨jsTrimList cs⟩ : String) :: parseCSVLine rest) ∧
    (∀ headers line, (parseCSVLine line).length ≠ headers.length →
      lineToRow headers line = none) ∧
    (∀ text, 2 ≤ (csvLines text).length →
      ((parseHeaders ((csvLines text).headD "")).contains "location_name" = true ∨
        (parseHeaders ((csvLines text).headD "")).contains "location_number" = true) →
      (parseHeaders ((csvLines text).headD "")).contains "post_content" = true →
      ∃ rows, parseCSV text = .ok rows) ∧
    parseCSV "location_name,post_content\nbadline\n\"A, B\",hi" =
      .ok [{ location_name := "A, B", location_number := "", post_content := "hi",
             link_url := "", scheduled_for := "", media_type := "", media_url := "" }] := by
  refine ⟨parseCSVLine_quoted_head, ?_, ?_, by decide⟩
  · intro headers line hne
    simp only [lineToRow]
    rw [if_pos hne]
  · intro text h1 h2 h3
    exact ⟨_, parseCSV_ok_eq text h1 h2 h3⟩

/-- Witness for C8: a one-field line under a two-field header is
skipped. -/
theorem csv_quote_aware_and_row_skip_witness :
    (parseCSVLine "x").length ≠ (["a", "b"] : List String).length ∧
    lineToRow ["a", "b"] "x" = none :=
  ⟨by decide, csv_quote_aware_and_row_skip.2.1 ["a", "b"] "x" (by decide)⟩

/-- The dispatch a bulk row would produce: `none` exactly when the row's
destination cannot be resolved. -/
def bulkDispatchOf (pages : List FacebookPage) (fb : String → Option JSDate)
    (row : CSVRow) : Option BulkPayload :=
  (resolvePage pages row).map (fun page => mkBulkPayload fb page row)

/-- The failure entry a bulk row contributes: `"<ident> (page not found)"`
for an unresolvable row, `"<name> (API error)"` for a dispatched row whose
API call failed, `none` for a success. -/
def bulkFailureOf (pages : List FacebookPage) (fb : String → Option JSDate)
    (api : BulkPayload → Bool) (row : CSVRow) : Option String :=
  match resolvePage pages row with
  | none => some (rowIdent row ++ " (page not found)")
  | some page =>
    if api (mkBulkPayload fb page row) then none
    else some (row.location_name ++ " (API error)")

/-- Whether a bulk row counts as a success: resolvable and API-accepted. -/
def bulkSuccess (pages : List FacebookPage) (fb : String → Option JSDate)
    (api : BulkPayload → Bool) (row : CSVRow) : Bool :=
  match resolvePage pages row with
  | none => false
  | some page => api (mkBulkPayload fb page row)

lemma handleBulkSubmit_foldl (pages : List FacebookPage) (fb : String → Option JSDate)
    (api : BulkPayload → Bool) (rows : List CSVRow) :
    ∀ st : BulkState,
      rows.foldl (bulkStep pages fb api) st =
        { successCount := st.successCount + (rows.filter (bulkSuccess pages fb api)).length,
          failedRows := st.failedRows ++ rows.filterMap (bulkFailureOf pages fb api),
          dispatched := st.dispatched ++ rows.filterMap (bulkDispatchOf pages fb) } := by
  induction rows with
  | nil => intro st; simp
  | cons r rs ih =>
    intro st
    rw [List.foldl_cons, ih]
    rw [List.filter_cons, List.filterMap_cons, List.filterMap_cons]
    cases hres : resolvePage pages r with
    | none =>
      have hstep : bulkStep pages fb api st r =
          { successCount := st.successCount,
            failedRows := st.failedRows ++ [rowIdent r ++ " (page not found)"],
            dispatched := st.dispatched } := by
        simp [bulkStep, hres]
      rw [hstep]
      simp [bulkSuccess, bulkFailureOf, bulkDispatchOf, hres]
    | some page =>
      by_cases hapi : api (mkBulkPayload fb page r)
      · have hstep : bulkStep pages fb api st r =
            { successCount := st.successCount + 1,
              failedRows := st.failedRows,
              dispatched := st.dispatched ++ [mkBulkPayload fb page r] } := by
          simp [bulkStep, hres, hapi]
        rw [hstep]
        have hs : bulkSuccess pages fb api r = true := by simp [bulkSuccess, hres, hapi]
        have hf : bulkFailureOf pages fb api r = none := by simp [bulkFailureOf, hres, hapi]
        have hd : bulkDispatchOf pages fb r = some (mkBulkPayload fb page r) := by
          simp [bulkDispatchOf, hres]
        rw [hs, hf, hd, BulkState.mk.injEq]
        refine ⟨by simp; omega, by simp, by simp [List.append_assoc]⟩
      · have hstep : bulkStep pages fb api st r =
            { successCount := st.successCount,
              failedRows := st.failedRows ++ [r.location_name ++ " (API error)"],
              dispatched := st.dispatched ++ [mkBulkPayload fb page r] } := by
          simp [bulkStep, hres, hapi]
        rw [hstep]
        simp [bulkSuccess, bulkFailureOf, bulkDispatchOf, hres, hapi, List.append_assoc]

lemma bulk_partition (pages : List FacebookPage) (fb : String → Option JSDate)
    (api : BulkPayload → Bool) :
    ∀ rows : List CSVRow,
      (rows.filter (bulkSuccess pages fb api)).length +
        (rows.filterMap (bulkFailureOf pages fb api)).length = rows.length := by
  intro rows
  induction rows with
  | nil => rfl
  | cons r rs ih =>
    rw [List.filter_cons, List.filterMap_cons]
    cases hres : resolvePage pages r with
    | none =>
      simp only [bulkSuccess, bulkFailureOf, hres]
      simp only [List.length_cons, List.length]
      simp
      omega
    | some page =>
      by_cases hapi : api (mkBulkPayload fb page r) <;>
        · simp only [bulkSuccess, bulkFailureOf, hres]
          simp [hapi]
          omega

/-- The bulk row of the concrete 3-row scenario that resolves to Alpha. -/
def row1234 : CSVRow :=
  { location_name := "", location_number := "1234", post_content := "a",
    link_url := "", scheduled_for := "", media_type := "", media_url := "" }

/-- The bulk row of the concrete 3-row scenario whose code 9999 resolves
to no destination. -/
def rowUnknown : CSVRow :=
  { location_name := "", location_number := "9999", post_content := "b",
    link_url := "", scheduled_for := "", media_type := "", media_url := "" }

/-- The bulk row of the concrete 3-row scenario that resolves to Beta. -/
def row5678 : CSVRow :=
  { location_name := "", location_number := "5678", post_content := "c",
    link_url := "", scheduled_for := "", media_type := "", media_url := "" }

/-- C6: bulk submission dispatches sequentially, in input order, exactly
the payloads of the resolvable rows (an unresolvable row is never
dispatched and contributes a named failure instead), and reports a
success count plus one failure string per failed row (their total is the
row count); in particular, 3 rows whose middle row cannot be resolved
yield success count 2 and exactly one failure entry carrying row 2's
identifier. -/
theorem handle_bulk_submit_report (pages : List FacebookPage)
    (fb : String → Option JSDate) (api : BulkPayload → Bool) (rows : List CSVRow) :
    (handleBulkSubmit pages fb api rows).dispatched =
      rows.filterMap (bulkDispatchOf pages fb) ∧
    (handleBulkSubmit pages fb api rows).failedRows =
      rows.filterMap (bulkFailureOf pages fb api) ∧
    (handleBulkSubmit pages fb api rows).successCount +
      (handleBulkSubmit pages fb api rows).failedRows.length = rows.length ∧
    (∀ r ∈ rows, resolvePage pages r = none →
      bulkDispatchOf pages fb r = none ∧
      bulkFailureOf pages fb api r = some (rowIdent r ++ " (page not found)")) ∧
    (handleBulkSubmit [alphaPage, betaPage] (fun _ => none) (fun _ => true)
        [row1234, rowUnknown, row5678]).successCount = 2 ∧
    (handleBulkSubmit [alphaPage, betaPage] (fun _ => none) (fun _ => true)
        [row1234, rowUnknown, row5678]).failedRows = ["9999 (page not found)"] ∧
    rowIdent rowUnknown = "9999" := by
  have hfold := handleBulkSubmit_foldl pages fb api rows ⟨0, [], []⟩
  refine ⟨?_, ?_, ?_, ?_, by decide, by decide, by decide⟩
  · rw [handleBulkSubmit, hfold]
    simp
  · rw [handleBulkSubmit, hfold]
    simp
  · rw [handleBulkSubmit, hfold]
    simpa using bulk_partition pages fb api rows
  · intro r _ hres
    exact ⟨by simp [bulkDispatchOf, hres], by simp [bulkFailureOf, hres]⟩

/-- Witness for C6: the unresolvable middle row is never dispatched and
yields the named failure. -/
theorem handle_bulk_submit_report_witness :
    rowUnknown ∈ [row1234, rowUnknown, row5678] ∧
    resolvePage [alphaPage, betaPage] rowUnknown = none ∧
    bulkFailureOf [alphaPage, betaPage] (fun _ => none) (fun _ => true) rowUnknown =
      some (rowIdent rowUnknown ++ " (page not found)") :=
  ⟨by decide, by decide,
    ((handle_bulk_submit_report [alphaPage, betaPage] (fun _ => none) (fun _ => true)
        [row1234, rowUnknown, row5678]).2.2.2.1 rowUnknown (by decide) (by decide)).2⟩

example : parseCSVLine "a,\"b, c\",d" = ["a", "b, c", "d"] := by decide

example :
    parseCSV "location_name,post_content\nAlpha,hello" =
      .ok [{ location_name := "Alpha", location_number := "", post_content := "hello",
             link_url := "", scheduled_for := "", media_type := "", media_url := "" }] := by
  decide

end FacebookPoster
